import Mathlib

/-!
Shallow embedding of the chunked, resumable download helper defined in
`docs/basics/download_nwb.ipynb` (the cell defining `MAX_CHUNK_SIZE`,
`get_download_file_iter_with_steps`, `downloader` and
`download_with_progressbar`), together with proofs of the testable
properties stated for it.

Modelling conventions:
* a byte stream is a `List Nat`;
* the external HTTP transport (`file.client.session.get` of the `requests`
  library) is modelled by `sessionGet`: the server answers with the file's
  status code and `content-length` header, and the body is the full resource
  byte stream, or its suffix from the requested offset for a range request;
* Python exceptions are the explicit error values of `PyError`, and code that
  can raise returns `Except PyError _`;
* the destination path's state is `Option (List Nat)`: `none` when no file
  entry exists, `some bytes` for an existing file with those contents.
-/

deriving instance DecidableEq for Except

namespace DownloadNwb

/-- The exceptions the embedded code can raise: `TransferError` abstracts the
`requests.HTTPError` raised by `raise_for_status` on a 4xx/5xx status,
`ZeroDivisionError` the failure of `total_size // chunk_size` at
`chunk_size = 0`, and `ValueError` the failure of `int(...)` on a string that
is not an integer literal. -/
inductive PyError where
  | TransferError (status : Nat)
  | ZeroDivisionError
  | ValueError
deriving DecidableEq, Repr

/-- Model of an HTTP response as the code observes it: `status_code`, the
`content-length` header (`none` when absent) and the body byte stream. -/
structure HttpResponse where
  status_code : Nat
  content_length : Option Nat
  body : List Nat
deriving DecidableEq, Repr

/-- Model of a `RemoteFile` handle together with the server behind its
`base_download_url`: the full resource byte stream, the status code the
server answers with, and the `content-length` header it reports. -/
structure RemoteFile where
  content : List Nat
  status_code : Nat
  content_length : Option Nat
deriving DecidableEq, Repr

/-- Model of `file.client.session.get(url, stream=True, headers=headers)`.
A request with a `Range: bytes=<s>-` header is represented by
`range_start = some s` and is answered with the resource suffix from byte
`s`; a plain GET (`headers=None`, `range_start = none`) is answered with the
full byte stream. -/
def sessionGet (file : RemoteFile) (range_start : Option Nat) : HttpResponse :=
  { status_code := file.status_code
    content_length := file.content_length
    body :=
      match range_start with
      | none => file.content
      | some s => file.content.drop s }

/-- Chunk-splitting loop, structurally recursive on a fuel bound so that it
evaluates; `fuel ≥ length of the body` makes it total for `c ≥ 1`, since
every step consumes at least one byte. -/
def iterContentAux : Nat → Nat → List Nat → List (List Nat)
  | _, _, [] => []
  | 0, _, _ :: _ => []
  | fuel + 1, c, x :: xs => (x :: xs).take c :: iterContentAux fuel c ((x :: xs).drop c)

/-- Model of `requests`' `result.iter_content(chunk_size=c)` on a fully
buffered body: the body split into consecutive chunks of exactly `c` bytes,
the last chunk possibly shorter. Faithful to the transport for `c ≥ 1`
(`requests` never yields more than `chunk_size` bytes per chunk). -/
def iter_content (chunk_size : Nat) (body : List Nat) : List (List Nat) :=
  iterContentAux body.length chunk_size body

/-- The `headers` value built at the top of the `downloader` closure:
`None` for `start_at = 0`, the dict `{"Range": f"bytes={start_at}-"}` for
`start_at > 0`. The `Range` header string `bytes=<s>-` is represented by its
start offset `s`. -/
def downloader_headers (start_at : Nat) : Option Nat :=
  if 0 < start_at then some start_at else none

/-- The `downloader(start_at)` generator closed over `file` and `chunk_size`
by `get_download_file_iter_with_steps`: issues the GET (with a `Range` header
iff `start_at > 0`), calls `raise_for_status` — which raises `HTTPError`
(`TransferError`) exactly on a 4xx/5xx status — and yields every non-empty
chunk of `iter_content(chunk_size=chunk_size)` in order (`if chunk:` drops
empty chunks). The lazy generator is modelled by the list of chunks it
yields, or the error it raises before the first yield. -/
def downloader (file : RemoteFile) (chunk_size : Int) (start_at : Nat) :
    Except PyError (List (List Nat)) :=
  let headers := downloader_headers start_at
  let result := sessionGet file headers
  if 400 ≤ result.status_code ∧ result.status_code < 600 then
    .error (.TransferError result.status_code)
  else
    .ok ((iter_content chunk_size.toNat result.body).filter (fun c => !c.isEmpty))

/-- `get_download_file_iter_with_steps(file, chunk_size)`: issues a plain
streaming GET, reads `total_size = int(result.headers.get('content-length', 0))`
and computes `steps_dict["total_steps"] = total_size // chunk_size` (Python
floor division, `Int.fdiv`; raises `ZeroDivisionError` when
`chunk_size = 0`). It returns the pair of the producer — the closure modelled
by `downloader file chunk_size` above — and the steps dict; this function
returns the `total_steps` entry of that dict. -/
def get_download_file_iter_with_steps (file : RemoteFile) (chunk_size : Int) :
    Except PyError Int :=
  let result := sessionGet file none
  let total_size : Int := Int.ofNat (result.content_length.getD 0)
  if chunk_size = 0 then .error .ZeroDivisionError
  else .ok (Int.fdiv total_size chunk_size)

/-- `pyDigitsAux acc cs`: folds decimal digits onto `acc`; fails at the first
non-digit character. Helper for the model of Python's `int(...)`. -/
def pyDigitsAux : Nat → List Char → Option Nat
  | acc, [] => some acc
  | acc, c :: cs =>
    if c.isDigit then pyDigitsAux (10 * acc + (c.toNat - Char.toNat '0')) cs
    else none

/-- Parse a non-empty run of decimal digits; `none` on the empty list or on
any non-digit character. -/
def pyParseNat : List Char → Option Nat
  | [] => none
  | c :: cs =>
    if c.isDigit then pyDigitsAux (c.toNat - Char.toNat '0') cs
    else none

/-- Model of Python's `int(s)` on a string: an optional sign followed by one
or more decimal digits; any other string raises `ValueError`. (Python
additionally strips surrounding whitespace and allows digit-group
underscores; those inputs are outside the behaviour claimed here.) -/
def pyInt (s : String) : Except PyError Int :=
  match s.data with
  | '-' :: cs =>
    match pyParseNat cs with
    | some n => .ok (-(n : Int))
    | none => .error .ValueError
  | '+' :: cs =>
    match pyParseNat cs with
    | some n => .ok (n : Int)
    | none => .error .ValueError
  | cs =>
    match pyParseNat cs with
    | some n => .ok (n : Int)
    | none => .error .ValueError

/-- `MAX_CHUNK_SIZE = int(os.environ.get("DANDI_MAX_CHUNK_SIZE", 1024 * 1024 * 8))`,
as a function of the environment variable's value (`none` when unset). When
the variable is unset, `os.environ.get` returns the default `1024 * 1024 * 8`
(already an int, which `int(...)` maps to itself); when it is set, its string
value is parsed by `int(...)` and a parse failure propagates. -/
def MAX_CHUNK_SIZE (env : Option String) : Except PyError Int :=
  match env with
  | none => .ok (1024 * 1024 * 8)
  | some s => pyInt s

/-- `download_with_progressbar(file, filepath, chunk_size)`, where
`max_chunk_size` is the value of the module global `MAX_CHUNK_SIZE` and
`dest` is the destination path's prior state. Returns the call's outcome,
the destination path's final state, and the `steps_dict["total_steps"]`
handed to `tqdm` as the progress-bar total (when the call got that far).

Faithful to the source's control flow:
* it calls `get_download_file_iter_with_steps(file)` with NO `chunk_size`
  argument, so both the step estimate and the producer use the default
  `MAX_CHUNK_SIZE`; the `chunk_size` parameter is never read;
* `open(filepath, "wb")` creates/truncates the destination file BEFORE the
  first chunk is pulled from the generator, so a request that fails at
  `raise_for_status` still leaves an empty file entry behind;
* on success every produced chunk is written sequentially, in order, so the
  final contents are the concatenation of the yielded chunks. -/
def download_with_progressbar (max_chunk_size : Int) (file : RemoteFile)
    (dest : Option (List Nat)) (chunk_size : Int) :
    Except PyError Unit × Option (List Nat) × Option Int :=
  match get_download_file_iter_with_steps file max_chunk_size with
  | .error e => (.error e, dest, none)
  | .ok total_steps =>
    match downloader file max_chunk_size 0 with
    | .error e => (.error e, some [], some total_steps)
    | .ok chunks => (.ok (), some chunks.flatten, some total_steps)

/-! ## Helper lemmas -/

/-- `Int.fdiv` on two natural numbers is natural-number division. -/
theorem fdiv_ofNat (a b : Nat) :
    Int.fdiv (Int.ofNat a) (Int.ofNat b) = Int.ofNat (a / b) := by
  rw [Int.fdiv_eq_ediv _ (by exact Int.ofNat_nonneg b)]
  rfl

/-- Python floor division of a natural numerator by a positive divisor is
natural-number division. -/
theorem fdiv_ofNat_pos (a : Nat) (c : Int) (hc : 0 < c) :
    Int.fdiv (Int.ofNat a) c = Int.ofNat (a / c.toNat) := by
  have hcn : Int.ofNat c.toNat = c := by
    rw [Int.ofNat_eq_coe]
    exact Int.toNat_of_nonneg (le_of_lt hc)
  calc Int.fdiv (Int.ofNat a) c
      = Int.fdiv (Int.ofNat a) (Int.ofNat c.toNat) := by rw [hcn]
    _ = Int.ofNat (a / c.toNat) := fdiv_ofNat a c.toNat

/-- With enough fuel and a positive chunk size, concatenating the chunks of
`iterContentAux` recovers the body. -/
theorem iterContentAux_flatten (c : Nat) (hc : 1 ≤ c) :
    ∀ (fuel : Nat) (l : List Nat), l.length ≤ fuel →
      (iterContentAux fuel c l).flatten = l := by
  intro fuel
  induction fuel with
  | zero =>
    intro l hl
    match l with
    | [] => rfl
    | x :: xs => simp at hl
  | succ n ih =>
    intro l hl
    match l with
    | [] => rfl
    | x :: xs =>
      have hlen : ((x :: xs).drop c).length ≤ n := by
        simp only [List.length_drop, List.length_cons]
        simp only [List.length_cons] at hl
        omega
      show ((x :: xs).take c :: iterContentAux n c ((x :: xs).drop c)).flatten = x :: xs
      rw [List.flatten_cons, ih _ hlen, List.take_append_drop]

/-- With a positive chunk size, every chunk produced by `iterContentAux` is
non-empty and no longer than the chunk size. -/
theorem iterContentAux_mem (c : Nat) (hc : 1 ≤ c) :
    ∀ (fuel : Nat) (l ch : List Nat), ch ∈ iterContentAux fuel c l →
      ch ≠ [] ∧ ch.length ≤ c := by
  intro fuel
  induction fuel with
  | zero =>
    intro l ch h
    match l with
    | [] => simp [iterContentAux] at h
    | x :: xs => simp [iterContentAux] at h
  | succ n ih =>
    intro l ch h
    match l with
    | [] => simp [iterContentAux] at h
    | x :: xs =>
      simp only [iterContentAux, List.mem_cons] at h
      rcases h with h | h
      · subst h
        refine ⟨?_, ?_⟩
        · match c, hc with
          | c' + 1, _ => simp
        · simp only [List.length_take]
          omega
      · exact ih _ _ h

/-- Concatenating the chunks of `iter_content` recovers the body
(chunk size positive). -/
theorem iter_content_flatten (c : Nat) (hc : 1 ≤ c) (l : List Nat) :
    (iter_content c l).flatten = l :=
  iterContentAux_flatten c hc l.length l le_rfl

/-- For a positive chunk size the transport yields no empty chunk, so the
`if chunk:` filter in `downloader` is the identity. -/
theorem iter_content_filter_nonempty (c : Nat) (hc : 1 ≤ c) (l : List Nat) :
    (iter_content c l).filter (fun ch => !ch.isEmpty) = iter_content c l := by
  rw [List.filter_eq_self]
  intro ch hch
  have h1 := (iterContentAux_mem c hc l.length l ch hch).1
  cases ch with
  | nil => exact absurd rfl h1
  | cons a as => rfl

/-- The body answered to the `downloader` request is the resource suffix from
`start_at` (the full stream when `start_at = 0`). -/
theorem sessionGet_downloader_headers_body (file : RemoteFile) (s : Nat) :
    (sessionGet file (downloader_headers s)).body = file.content.drop s := by
  by_cases h : 0 < s
  · simp [sessionGet, downloader_headers, h]
  · have h0 : s = 0 := by omega
    subst h0
    simp [sessionGet, downloader_headers]

/-- Outside the 4xx/5xx range, `downloader` yields the non-empty chunks of
the response body. -/
theorem downloader_eq_ok (file : RemoteFile) (c : Int) (s : Nat)
    (hstatus : ¬(400 ≤ file.status_code ∧ file.status_code < 600)) :
    downloader file c s =
      .ok ((iter_content c.toNat (file.content.drop s)).filter
        (fun ch => !ch.isEmpty)) := by
  unfold downloader
  rw [if_neg, sessionGet_downloader_headers_body]
  exact hstatus

/-- On a 4xx/5xx status, `raise_for_status` makes `downloader` raise
`TransferError` before yielding any chunk. -/
theorem downloader_eq_error (file : RemoteFile) (c : Int) (s : Nat)
    (hstatus : 400 ≤ file.status_code ∧ file.status_code < 600) :
    downloader file c s = .error (.TransferError file.status_code) := by
  unfold downloader
  rw [if_pos]
  · rfl
  · exact hstatus

/-- With a non-zero chunk size, `get_download_file_iter_with_steps` returns
normally with the floor division of the reported size by the chunk size. -/
theorem get_download_file_iter_with_steps_eq_ok (file : RemoteFile) (c : Int)
    (hc : c ≠ 0) :
    get_download_file_iter_with_steps file c =
      .ok (Int.fdiv (Int.ofNat (file.content_length.getD 0)) c) := by
  unfold get_download_file_iter_with_steps
  rw [if_neg hc]
  rfl

/-- Whenever the module-level chunk size is non-zero, the outcome of
`download_with_progressbar` does not depend on the destination path's prior
state: the file is opened `"wb"` (created or truncated) in every run. -/
theorem download_dest_irrelevant (m : Int) (file : RemoteFile)
    (d d' : Option (List Nat)) (c : Int) (hm : m ≠ 0) :
    download_with_progressbar m file d c = download_with_progressbar m file d' c := by
  unfold download_with_progressbar
  rw [get_download_file_iter_with_steps_eq_ok file m hm]

/-! ## Claim theorems -/

/-- C1: on a reachable resource, `download_with_progressbar` returns
normally, the chunks it writes sequentially and in order are exactly those
yielded by the producer at offset 0, and the destination file's final
contents are byte-for-byte the full source byte stream. -/
theorem download_writes_exact_source_bytes (m : Int) (file : RemoteFile)
    (dest : Option (List Nat)) (c : Int) (hm : 1 ≤ m)
    (hstatus : file.status_code < 400) :
    downloader file m 0 = .ok (iter_content m.toNat file.content) ∧
    (download_with_progressbar m file dest c).1 = .ok () ∧
    (download_with_progressbar m file dest c).2.1 =
      some (iter_content m.toNat file.content).flatten ∧
    (iter_content m.toNat file.content).flatten = file.content := by
  have hcnat : 1 ≤ m.toNat := by omega
  have hm0 : m ≠ 0 := by omega
  have hchunks : downloader file m 0 = .ok (iter_content m.toNat file.content) := by
    rw [downloader_eq_ok file m 0 (by omega)]
    simp only [List.drop_zero]
    rw [iter_content_filter_nonempty _ hcnat]
  refine ⟨hchunks, ?_, ?_, iter_content_flatten _ hcnat _⟩
  · unfold download_with_progressbar
    rw [get_download_file_iter_with_steps_eq_ok file m hm0, hchunks]
  · unfold download_with_progressbar
    rw [get_download_file_iter_with_steps_eq_ok file m hm0, hchunks]

/-- Witness for C1 at a concrete 5-byte resource with chunk size 2. -/
theorem download_writes_exact_source_bytes_witness :
    downloader ⟨[1, 2, 3, 4, 5], 200, some 5⟩ 2 0 = .ok [[1, 2], [3, 4], [5]] ∧
    (download_with_progressbar 2 ⟨[1, 2, 3, 4, 5], 200, some 5⟩ none 2).1 = .ok () ∧
    (download_with_progressbar 2 ⟨[1, 2, 3, 4, 5], 200, some 5⟩ none 2).2.1 =
      some [1, 2, 3, 4, 5] ∧
    ([[1, 2], [3, 4], [5]] : List (List Nat)).flatten = [1, 2, 3, 4, 5] :=
  download_writes_exact_source_bytes 2 ⟨[1, 2, 3, 4, 5], 200, some 5⟩ none 2
    (by decide) (by decide)

/-- C2: for a resource whose `content-length` header reports `L`,
`get_download_file_iter_with_steps` reports `total_steps = L div C` (integer
division) for a positive chunk size `C`; the value depends only on the
header, never on the body or its chunk boundaries; and an absent or zero
header yields `total_steps = 0` with no error. -/
theorem total_steps_eq_length_div_chunk (file : RemoteFile) (c : Int)
    (hc : 0 < c) :
    (∀ L, file.content_length = some L →
      get_download_file_iter_with_steps file c = .ok (Int.ofNat (L / c.toNat))) ∧
    (file.content_length = none ∨ file.content_length = some 0 →
      get_download_file_iter_with_steps file c = .ok 0) ∧
    (∀ other : RemoteFile, other.content_length = file.content_length →
      get_download_file_iter_with_steps other c =
        get_download_file_iter_with_steps file c) := by
  have hc0 : c ≠ 0 := by omega
  refine ⟨?_, ?_, ?_⟩
  · intro L hL
    rw [get_download_file_iter_with_steps_eq_ok file c hc0, hL]
    show Except.ok (Int.fdiv (Int.ofNat L) c) = _
    rw [fdiv_ofNat_pos L c hc]
  · intro h
    rw [get_download_file_iter_with_steps_eq_ok file c hc0]
    rcases h with h | h <;> rw [h] <;>
      · show Except.ok (Int.fdiv (Int.ofNat 0) c) = _
        rw [fdiv_ofNat_pos 0 c hc]
        simp
  · intro other hother
    rw [get_download_file_iter_with_steps_eq_ok file c hc0,
      get_download_file_iter_with_steps_eq_ok other c hc0, hother]

/-- Witness for C2 at a 200-byte resource with chunk size 64:
`total_steps = 200 div 64 = 3`, and a zero header reports 0 steps. -/
theorem total_steps_eq_length_div_chunk_witness :
    get_download_file_iter_with_steps ⟨[], 200, some 200⟩ 64 = .ok 3 ∧
    get_download_file_iter_with_steps ⟨[], 200, some 0⟩ 64 = .ok 0 :=
  ⟨(total_steps_eq_length_div_chunk ⟨[], 200, some 200⟩ 64 (by decide)).1
      200 rfl,
    (total_steps_eq_length_div_chunk ⟨[], 200, some 0⟩ 64 (by decide)).2.1
      (Or.inr rfl)⟩

/-- C5: the `downloader` generator attaches a `Range: bytes=<start_at>-`
header exactly when the start offset is positive, and issues a plain GET
(no headers) when it is 0. -/
theorem downloader_range_header_iff (s : Nat) :
    ((downloader_headers s).isSome ↔ 0 < s) ∧
    (0 < s → downloader_headers s = some s) ∧
    (s = 0 → downloader_headers s = none) := by
  unfold downloader_headers
  by_cases h : 0 < s <;> simp [h] <;> omega

/-- Witness for C5 at start offsets 3 and 0. -/
theorem downloader_range_header_iff_witness :
    downloader_headers 3 = some 3 ∧ downloader_headers 0 = none :=
  ⟨(downloader_range_header_iff 3).2.1 (by decide),
    (downloader_range_header_iff 0).2.2 rfl⟩

/-- C3 as stated is false on the code: against a 404 resource that streams
zero bytes, `download_with_progressbar` does raise `TransferError`, but a
destination file entry IS created — `open(filepath, "wb")` runs before the
generator body reaches `raise_for_status`, so an empty file is left at the
destination path. -/
theorem download_404_still_creates_file_entry :
    (download_with_progressbar 8388608 ⟨[], 404, some 0⟩ none 8388608).1 =
      .error (.TransferError 404) ∧
    ¬(download_with_progressbar 8388608 ⟨[], 404, some 0⟩ none 8388608).2.1 = none := by
  decide

/-- C3 amended: against a 4xx/5xx resource, `download_with_progressbar`
raises `TransferError` with that status, and the destination path holds a
zero-byte file entry afterwards (created/truncated by `open(..., "wb")`
before the first chunk was requested). -/
theorem download_error_status_raises_and_leaves_empty_file (m : Int)
    (file : RemoteFile) (dest : Option (List Nat)) (c : Int) (hm : m ≠ 0)
    (hstatus : 400 ≤ file.status_code ∧ file.status_code < 600) :
    (download_with_progressbar m file dest c).1 =
      .error (.TransferError file.status_code) ∧
    (download_with_progressbar m file dest c).2.1 = some [] := by
  have hdl : downloader file m 0 = .error (.TransferError file.status_code) :=
    downloader_eq_error file m 0 hstatus
  unfold download_with_progressbar
  rw [get_download_file_iter_with_steps_eq_ok file m hm, hdl]
  exact ⟨rfl, rfl⟩

/-- Witness for the amended C3 at a concrete 404 resource. -/
theorem download_error_status_witness :
    (download_with_progressbar 8388608 ⟨[], 404, some 0⟩ none 64).1 =
      .error (.TransferError 404) ∧
    (download_with_progressbar 8388608 ⟨[], 404, some 0⟩ none 64).2.1 = some [] :=
  download_error_status_raises_and_leaves_empty_file 8388608 ⟨[], 404, some 0⟩
    none 64 (by decide) (by decide)

/-- C4 fails on the code: `download_with_progressbar` never reads its
`chunk_size` argument — it calls `get_download_file_iter_with_steps(file)`
without forwarding it, so the step estimate and the producer both use the
default `MAX_CHUNK_SIZE`. The outcome is identical for any two supplied
chunk sizes, and on a 200-byte resource with `chunk_size = 64` the progress
total is `200 // 8388608 = 0`, not `200 // 64 = 3` as the supplied chunk
size would give. -/
theorem download_chunk_size_argument_ignored :
    (∀ (m : Int) (file : RemoteFile) (dest : Option (List Nat)) (c c' : Int),
      download_with_progressbar m file dest c =
        download_with_progressbar m file dest c') ∧
    (download_with_progressbar 8388608
        ⟨List.replicate 200 7, 200, some 200⟩ none 64).2.2 = some 0 := by
  constructor
  · intro m file dest c c'
    rfl
  · decide

/-- C6: every chunk yielded by the producer is non-empty and at most
`chunk_size` bytes long (positive chunk size). -/
theorem produce_chunks_nonempty_and_bounded (file : RemoteFile) (c : Int)
    (s : Nat) (chunks : List (List Nat)) (hc : 1 ≤ c)
    (h : downloader file c s = .ok chunks) :
    ∀ ch ∈ chunks, 0 < ch.length ∧ (ch.length : Int) ≤ c := by
  rcases Classical.em (400 ≤ file.status_code ∧ file.status_code < 600) with hstat | hstat
  · rw [downloader_eq_error file c s hstat] at h
    exact absurd h (by simp)
  · rw [downloader_eq_ok file c s hstat, Except.ok.injEq] at h
    subst h
    intro ch hch
    have hmem := List.mem_of_mem_filter hch
    have hbound := iterContentAux_mem c.toNat (by omega)
      (file.content.drop s).length (file.content.drop s) ch hmem
    have hpos : 0 < ch.length := List.length_pos.mpr hbound.1
    refine ⟨hpos, ?_⟩
    have := hbound.2
    omega

/-- Witness for C6: a concrete produced chunk is non-empty and within the
chunk-size bound. -/
theorem produce_chunks_nonempty_and_bounded_witness :
    0 < [1, 2].length ∧ (([1, 2].length : Nat) : Int) ≤ 2 :=
  produce_chunks_nonempty_and_bounded ⟨[1, 2, 3], 200, some 3⟩ 2 0
    [[1, 2], [3]] (by decide) (by decide) [1, 2] (by decide)

/-- C7: for a positive resume offset, the first `start_at` source bytes
followed by the concatenation of the resumed producer's chunks equal the
full resource byte stream. -/
theorem resume_stream_correct (file : RemoteFile) (c : Int) (s : Nat)
    (chunks : List (List Nat)) (hc : 1 ≤ c) (hs : 0 < s)
    (h : downloader file c s = .ok chunks) :
    file.content.take s ++ chunks.flatten = file.content := by
  have hcnat : 1 ≤ c.toNat := by omega
  rcases Classical.em (400 ≤ file.status_code ∧ file.status_code < 600) with hstat | hstat
  · rw [downloader_eq_error file c s hstat] at h
    exact absurd h (by simp)
  · rw [downloader_eq_ok file c s hstat, Except.ok.injEq] at h
    subst h
    rw [iter_content_filter_nonempty _ hcnat,
      iter_content_flatten _ hcnat, List.take_append_drop]

/-- Witness for C7: resuming a 5-byte resource from offset 1 restores the
full stream. -/
theorem resume_stream_correct_witness :
    List.take 1 [1, 2, 3, 4, 5] ++ ([[2, 3], [4, 5]] : List (List Nat)).flatten =
      [1, 2, 3, 4, 5] :=
  resume_stream_correct ⟨[1, 2, 3, 4, 5], 200, some 5⟩ 2 1 [[2, 3], [4, 5]]
    (by decide) (by decide) (by decide)

/-- C8: a second invocation of `download_with_progressbar` at the same
destination path, started from the file state the first invocation left
behind, produces exactly the state a single invocation produces — the file
is fully overwritten, never appended to. -/
theorem download_twice_overwrites (m : Int) (file : RemoteFile)
    (dest : Option (List Nat)) (c : Int) (hm : m ≠ 0) :
    download_with_progressbar m file
        (download_with_progressbar m file dest c).2.1 c =
      download_with_progressbar m file dest c :=
  download_dest_irrelevant m file _ dest c hm

/-- Witness for C8 at a concrete 3-byte resource. -/
theorem download_twice_overwrites_witness :
    download_with_progressbar 2 ⟨[1, 2, 3], 200, some 3⟩
        (download_with_progressbar 2 ⟨[1, 2, 3], 200, some 3⟩ none 2).2.1 2 =
      download_with_progressbar 2 ⟨[1, 2, 3], 200, some 3⟩ none 2 :=
  download_twice_overwrites 2 ⟨[1, 2, 3], 200, some 3⟩ none 2 (by decide)

/-- C9: the effective chunk size is the environment variable parsed by
`int(...)` when it is set, `8 MiB = 8388608` bytes when it is unset, and a
value that fails to parse propagates the `ValueError` — there is no silent
fallback to the default. -/
theorem max_chunk_size_env (env : Option String) :
    (env = none → MAX_CHUNK_SIZE env = .ok 8388608) ∧
    (∀ s n, env = some s → pyInt s = .ok n → MAX_CHUNK_SIZE env = .ok n) ∧
    (∀ s, env = some s → pyInt s = .error .ValueError →
      MAX_CHUNK_SIZE env = .error .ValueError) := by
  refine ⟨?_, ?_, ?_⟩
  · intro h
    subst h
    rfl
  · intro s n hs hparse
    subst hs
    show pyInt s = .ok n
    exact hparse
  · intro s hs hparse
    subst hs
    show pyInt s = .error .ValueError
    exact hparse

/-- Witness for C9: unset, a well-formed value, and a malformed value. -/
theorem max_chunk_size_env_witness :
    MAX_CHUNK_SIZE none = .ok 8388608 ∧
    MAX_CHUNK_SIZE (some "42") = .ok 42 ∧
    MAX_CHUNK_SIZE (some "xyz") = .error .ValueError :=
  ⟨(max_chunk_size_env none).1 rfl,
    (max_chunk_size_env (some "42")).2.1 "42" 42 rfl (by decide),
    (max_chunk_size_env (some "xyz")).2.2 "xyz" rfl (by decide)⟩

/-- C10: the positivity invariant on the chunk size is never validated:
the environment value `"0"` yields chunk size 0; with chunk size 0,
`get_download_file_iter_with_steps` raises `ZeroDivisionError` at
`total_size // chunk_size`; and a negative chunk size is accepted there
without error (Python floor division handles it). -/
theorem chunk_size_never_validated (file : RemoteFile) (c : Int) :
    (MAX_CHUNK_SIZE (some "0") = .ok 0) ∧
    (c = 0 → get_download_file_iter_with_steps file c = .error .ZeroDivisionError) ∧
    (c < 0 → get_download_file_iter_with_steps file c =
      .ok (Int.fdiv (Int.ofNat (file.content_length.getD 0)) c)) := by
  refine ⟨by decide, ?_, ?_⟩
  · intro h
    subst h
    rfl
  · intro h
    exact get_download_file_iter_with_steps_eq_ok file c (by omega)

/-- Witness for C10: division-by-zero at chunk size 0, and a negative chunk
size accepted without error on a 200-byte resource. -/
theorem chunk_size_never_validated_witness :
    get_download_file_iter_with_steps ⟨[], 200, some 200⟩ 0 =
      .error .ZeroDivisionError ∧
    get_download_file_iter_with_steps ⟨[], 200, some 200⟩ (-64) = .ok (-4) :=
  ⟨(chunk_size_never_validated ⟨[], 200, some 200⟩ 0).2.1 rfl,
    (chunk_size_never_validated ⟨[], 200, some 200⟩ (-64)).2.2 (by decide)⟩

end DownloadNwb
